import Mathlib

/-!
Shallow embedding of the afams-accounting-backend authentication and
per-user data-isolation layer (server.js together with the mongoose models
Transaction.js, BalanceItem.js and Category.js), and theorems about its
contracts.

Modelling conventions.
The document store is modelled as an in-memory list of records per
collection; store queries (`findOne`, `findById`, `find`) are total list
lookups, following the scoping that treats the store itself as an external
collaborator reachable via simple query operations.  Mongoose casting of
client-supplied ObjectId strings is modelled by the `isValidObjectId`
guard on the paths where the cast can fail on attacker-controlled input
(the `:id` path parameter of update/delete handlers and `userId` values
inside an update document): an uncastable value makes the query call
throw, which each handler's catch-all converts into a 500 response.
Request bodies are modelled as structures of `Option`-typed fields, the
shape of the parsed JSON after successful casting of the primitive field
types.  The jsonwebtoken library is external; its token-string space is
modelled by `JwtToken`: a well-formed token is determined by the claims it
encodes and the secret it was signed with, every other string is
malformed.
-/

namespace Afams

/-- One character of a hexadecimal ObjectId string. -/
def isHexChar (c : Char) : Bool :=
  c.isDigit || (('a' ≤ c) && (c ≤ 'f')) || (('A' ≤ c) && (c ≤ 'F'))

/-- Mongoose `ObjectId` cast acceptance for a string: a 24-character hex
string or any 12-character string. -/
def isValidObjectId (s : String) : Bool :=
  s.length == 12 || (s.length == 24 && s.toList.all isHexChar)

/-- Claims payload of a token, as produced by
`jwt.sign({ userId }, secret, { expiresIn })`: the `userId` claim plus the
issued-at and expiry timestamps (seconds). -/
structure JwtClaims where
  userId : String
  iat : Int
  exp : Int
  deriving DecidableEq

/-- The space of token strings as the jsonwebtoken library classifies
them: a well-formed token is determined by the claims it encodes and the
secret it was signed with; every other string is malformed. -/
inductive JwtToken where
  | signed (claims : JwtClaims) (signedWith : String)
  | malformed (raw : String)
  deriving DecidableEq

/-- The failure modes on which `jwt.verify` throws. -/
inductive JwtError where
  | badSignature
  | expired
  | malformed
  deriving DecidableEq

/-- Model of `jwt.verify(token, secret)`: checks the signature and the `exp` claim
(a token is expired once the current time has reached `exp`); throwing is
modelled by `Except.error`. -/
def jwtVerify (secret : String) (now : Int) : JwtToken → Except JwtError JwtClaims
  | .signed c s =>
      if s ≠ secret then .error .badSignature
      else if c.exp ≤ now then .error .expired
      else .ok c
  | .malformed _ => .error .malformed

/-- Seconds in the configured token lifetime, with its default of 7 days
(`JWT_EXPIRES_IN`). -/
def JWT_EXPIRES_IN : Int := 7 * 24 * 60 * 60

/-- Model of `jwt.sign(payload, secret, expiresIn)`: signs `{ userId }` plus the
standard `iat` and `exp` claims, `exp = now + expiresIn`. -/
def jwtSign (secret : String) (now : Int) (userId : String) (expiresIn : Int) : JwtToken :=
  .signed { userId := userId, iat := now, exp := now + expiresIn } secret

/-- Function `generateToken(userId)` from server.js. -/
def generateToken (secret : String) (now : Int) (userId : String) : JwtToken :=
  jwtSign secret now userId JWT_EXPIRES_IN

/-- Function `verifyToken(token)` from server.js: `jwt.verify` wrapped in try/catch,
every throw becomes `null`.  The function is total by construction. -/
def verifyToken (secret : String) (now : Int) (token : JwtToken) : Option JwtClaims :=
  match jwtVerify secret now token with
  | .ok c => some c
  | .error _ => none

/-- A stored user record (the User model; password hashing happens inside
that model and plays no role in the properties below). -/
structure User where
  id : String
  email : String
  password : String
  createdAt : Int
  deriving DecidableEq

/-- Store query `User.findById(id)`, modelled as a total lookup. -/
def findById (users : List User) (uid : String) : Option User :=
  users.find? (fun u => u.id == uid)

/-- The Authorization header as the guard inspects it: `bearer tok` stands
for a header string that starts with the `Bearer ` scheme and whose
`split(' ')[1]` component is `tok`; `nonBearer raw` is any other header
string (one failing the `startsWith` check). -/
inductive AuthHeader where
  | bearer (tok : JwtToken)
  | nonBearer (raw : String)
  deriving DecidableEq

/-- Outcome of the authentication middleware: either an early response or
control passed to the next handler with `req.userId` and `req.user` set. -/
inductive AuthOutcome where
  | reject (status : Nat) (message : String)
  | proceed (userId : String) (user : User)
  deriving DecidableEq

/-- Middleware `authenticate(req, res, next)` from server.js: header scheme check,
token verification, user lookup, then attach `{userId, user}`. -/
def authenticate (users : List User) (secret : String) (now : Int) :
    Option AuthHeader → AuthOutcome
  | none => .reject 401 "Token tidak valid"
  | some (.nonBearer _) => .reject 401 "Token tidak valid"
  | some (.bearer tok) =>
      match verifyToken secret now tok with
      | none => .reject 401 "Token tidak valid"
      | some decoded =>
          match findById users decoded.userId with
          | none => .reject 401 "User tidak ditemukan"
          | some u => .proceed decoded.userId u

/-- A stored transaction document (models/Transaction.js). -/
structure Transaction where
  id : String
  userId : String
  type : String
  date : Int
  category : String
  description : String
  amount : Int
  customerName : Option String
  invoiceNumber : String
  createdAt : Int
  updatedAt : Int
  deriving DecidableEq

/-- A parsed transaction request body: each schema path is optional, as in
the incoming JSON.  Field values stand for already-cast primitives. -/
structure TxnBody where
  userId : Option String := none
  type : Option String := none
  date : Option Int := none
  category : Option String := none
  description : Option String := none
  amount : Option Int := none
  customerName : Option String := none
  invoiceNumber : Option String := none
  createdAt : Option Int := none
  updatedAt : Option Int := none
  deriving DecidableEq

/-- The transactionSchema validators run by `save()`: `userId`, `type`,
`date`, `category`, `description`, `amount` required (a required String
path rejects the empty string as well as a missing value), `type` in its
enum, `amount ≥ 0`, and `customerName` required exactly when the type is
income. -/
def validTxnData (d : TxnBody) : Bool :=
  isValidObjectId (d.userId.getD "") &&
  (d.type.getD "" == "income" || d.type.getD "" == "expense") &&
  d.date.isSome &&
  (d.category.getD "" != "") &&
  (d.description.getD "" != "") &&
  d.amount.isSome && decide (0 ≤ d.amount.getD 0) &&
  (if d.type.getD "" == "income" then d.customerName.getD "" != "" else true)

/-- Model of `new Transaction(data)` followed by `save()`: on validation success the
stored document, with `invoiceNumber` defaulting to the empty string,
`createdAt` defaulting to now and the pre-save hook forcing
`updatedAt = now`; `none` when a validator rejects (the save throws). -/
def mkTransaction (freshId : String) (now : Int) (d : TxnBody) : Option Transaction :=
  if validTxnData d then
    some { id := freshId, userId := d.userId.getD "", type := d.type.getD "",
           date := d.date.getD 0, category := d.category.getD "",
           description := d.description.getD "", amount := d.amount.getD 0,
           customerName := d.customerName, invoiceNumber := d.invoiceNumber.getD "",
           createdAt := d.createdAt.getD now, updatedAt := now }
  else none

/-- POST /transactions: spread the body, overwrite `userId` with the
authenticated id, save; a save failure lands in the handler's catch and
becomes a 500 with the store unchanged. -/
def postTransactions (db : List Transaction) (uid : String) (body : TxnBody)
    (freshId : String) (now : Int) : Nat × List Transaction :=
  match mkTransaction freshId now { body with userId := some uid } with
  | some t => (201, db ++ [t])
  | none => (500, db)

/-- Replace the first element satisfying `p` by its image under `f`
(`findOneAndUpdate` touches a single matching document). -/
def updateFirst (p : α → Bool) (f : α → α) : List α → List α
  | [] => []
  | x :: xs => if p x then f x :: xs else x :: updateFirst p f xs

/-- Drop the first element satisfying `p` (`findOneAndDelete` removes a
single matching document). -/
def removeFirst (p : α → Bool) : List α → List α
  | [] => []
  | x :: xs => if p x then xs else x :: removeFirst p xs

/-- The update document `{ ...req.body, updatedAt: Date.now() }` applied to
a stored transaction as a `$set`: every body field that is present is
written as given — including `userId`, which this path does not re-stamp
from the authenticated identity — and `updatedAt` is overwritten with now. -/
def applyTxnUpdate (t : Transaction) (body : TxnBody) (now : Int) : Transaction :=
  { id := t.id
    userId := body.userId.getD t.userId
    type := body.type.getD t.type
    date := body.date.getD t.date
    category := body.category.getD t.category
    description := body.description.getD t.description
    amount := body.amount.getD t.amount
    customerName := match body.customerName with
                    | some c => some c
                    | none => t.customerName
    invoiceNumber := body.invoiceNumber.getD t.invoiceNumber
    createdAt := body.createdAt.getD t.createdAt
    updatedAt := now }

/-- Whether the update document casts: `findOneAndUpdate` casts it before
querying, and an
uncastable `userId` value in the body makes the call throw. -/
def txnUpdateCastOk (body : TxnBody) : Bool :=
  match body.userId with
  | some v => isValidObjectId v
  | none => true

/-- PUT /transactions/:id: `findOneAndUpdate({_id, userId}, {...body,
updatedAt: now})`; a cast failure of the path id or of the update document
throws into the catch (500); no matching owned document is a 404. -/
def putTransaction (db : List Transaction) (uid idParam : String) (body : TxnBody)
    (now : Int) : Nat × List Transaction :=
  if ¬ isValidObjectId idParam then (500, db)
  else if ¬ txnUpdateCastOk body then (500, db)
  else
    match db.find? (fun t => t.id == idParam && t.userId == uid) with
    | none => (404, db)
    | some _ =>
        (200, updateFirst (fun t => t.id == idParam && t.userId == uid)
              (fun t => applyTxnUpdate t body now) db)

/-- DELETE /transactions/:id: `findOneAndDelete({_id, userId})`; a cast
failure of the path id throws into the catch (500); no matching owned
document is a 404. -/
def deleteTransaction (db : List Transaction) (uid idParam : String) :
    Nat × List Transaction :=
  if ¬ isValidObjectId idParam then (500, db)
  else
    match db.find? (fun t => t.id == idParam && t.userId == uid) with
    | none => (404, db)
    | some _ => (200, removeFirst (fun t => t.id == idParam && t.userId == uid) db)

/-- A stored balance-sheet document (models/BalanceItem.js). -/
structure BalanceItem where
  id : String
  userId : String
  type : String
  date : Int
  category : String
  description : String
  amount : Int
  createdAt : Int
  updatedAt : Int
  deriving DecidableEq

/-- A parsed balance-item request body. -/
structure BalanceItemBody where
  userId : Option String := none
  type : Option String := none
  date : Option Int := none
  category : Option String := none
  description : Option String := none
  amount : Option Int := none
  createdAt : Option Int := none
  updatedAt : Option Int := none
  deriving DecidableEq

/-- The balanceItemSchema validators run by `save()`. -/
def validBalanceItemData (d : BalanceItemBody) : Bool :=
  isValidObjectId (d.userId.getD "") &&
  (d.type.getD "" == "asset" || d.type.getD "" == "liability" ||
    d.type.getD "" == "equity") &&
  d.date.isSome &&
  (d.category.getD "" != "") &&
  (d.description.getD "" != "") &&
  d.amount.isSome && decide (0 ≤ d.amount.getD 0)

/-- Model of `new BalanceItem(data)` followed by `save()`, with the pre-save hook
forcing `updatedAt = now`. -/
def mkBalanceItem (freshId : String) (now : Int) (d : BalanceItemBody) :
    Option BalanceItem :=
  if validBalanceItemData d then
    some { id := freshId, userId := d.userId.getD "", type := d.type.getD "",
           date := d.date.getD 0, category := d.category.getD "",
           description := d.description.getD "", amount := d.amount.getD 0,
           createdAt := d.createdAt.getD now, updatedAt := now }
  else none

/-- POST /balance-items: spread the body, overwrite `userId` with the
authenticated id, save; a save failure becomes a 500. -/
def postBalanceItems (db : List BalanceItem) (uid : String) (body : BalanceItemBody)
    (freshId : String) (now : Int) : Nat × List BalanceItem :=
  match mkBalanceItem freshId now { body with userId := some uid } with
  | some b => (201, db ++ [b])
  | none => (500, db)

/-- A stored category document (models/Category.js). -/
structure Category where
  id : String
  userId : String
  type : String
  name : String
  isDefault : Bool
  createdAt : Int
  deriving DecidableEq

/-- A parsed category request body. -/
structure CategoryBody where
  userId : Option String := none
  type : Option String := none
  name : Option String := none
  isDefault : Option Bool := none
  deriving DecidableEq

/-- JS truthiness of an optional string field: `!x` holds for a missing
field and for the empty string. -/
def truthy : Option String → Bool
  | some s => s != ""
  | none => false

/-- POST /categories: require truthy `type` and `name` (400 otherwise),
reject an existing `{userId, type, name}` match as a duplicate (400), then
store `{userId: req.userId, type, name, isDefault: false}` — the body's
own `userId` is never consulted.  The save trims the name, validates the
enum and the trimmed name (500 on failure via the catch), and the unique
`{userId, type, name}` index rejects a post-trim duplicate (500). -/
def postCategories (db : List Category) (uid : String) (body : CategoryBody)
    (freshId : String) (now : Int) : Nat × List Category :=
  if ¬ (truthy body.type && truthy body.name) then (400, db)
  else if (db.find? (fun c => c.userId == uid && c.type == body.type.getD "" &&
             c.name == body.name.getD "")).isSome
  then (400, db)
  else if ¬ (isValidObjectId uid &&
             (body.type.getD "" == "income" || body.type.getD "" == "expense") &&
             (body.name.getD "").trim != "")
  then (500, db)
  else if (db.find? (fun c => c.userId == uid && c.type == body.type.getD "" &&
             c.name == (body.name.getD "").trim)).isSome
  then (500, db)
  else (201, db ++ [{ id := freshId, userId := uid, type := body.type.getD "",
                      name := (body.name.getD "").trim, isDefault := false,
                      createdAt := now }])

/-- DELETE /categories/:id: `findOneAndDelete({_id, userId, isDefault:
false})`; a cast failure of the path id throws into the catch (500); no
match — missing, unowned, or flagged default — is a 404. -/
def deleteCategory (db : List Category) (uid idParam : String) :
    Nat × List Category :=
  if ¬ isValidObjectId idParam then (500, db)
  else
    match db.find? (fun c => c.id == idParam && c.userId == uid && c.isDefault == false) with
    | none => (404, db)
    | some _ =>
        (200, removeFirst
          (fun c => c.id == idParam && c.userId == uid && c.isDefault == false) db)

/-- A parsed registration body. -/
structure RegisterBody where
  email : Option String := none
  password : Option String := none
  deriving DecidableEq

def defaultIncomeCategories : List String :=
  ["Penjualan", "Jasa", "Komisi", "Lainnya"]

def defaultExpenseCategories : List String :=
  ["Supplier Cost", "Transport", "Office Expense", "Other"]

/-- Model of `createDefaultCategories(userId)`: the eight seeded categories, each
flagged `isDefault: true`; `catIds` supplies the fresh document ids. -/
def createDefaultCategories (uid : String) (now : Int) (catIds : List String) :
    List Category :=
  (List.zip catIds
      (defaultIncomeCategories.map (fun n => ("income", n)) ++
       defaultExpenseCategories.map (fun n => ("expense", n)))).map
    (fun x => { id := x.1, userId := uid, type := x.2.1, name := x.2.2,
                isDefault := true, createdAt := now })

/-- Model of `email.toLowerCase()`: lowercase every character. -/
def lowercase (s : String) : String := ⟨s.data.map Char.toLower⟩

/-- POST /register: require truthy email and password (400), password
length at least 4 (400), no existing user under the lowercased email
(400 duplicate), else store the user with the lowercased email and seed
the default categories (201).  Returns (status, users, categories). -/
def register (users : List User) (cats : List Category) (body : RegisterBody)
    (freshId : String) (catIds : List String) (now : Int) :
    Nat × String × List User × List Category :=
  if ¬ (truthy body.email && truthy body.password)
  then (400, "Email dan password harus diisi", users, cats)
  else if (body.password.getD "").length < 4
  then (400, "Password minimal 4 karakter", users, cats)
  else if (users.find? (fun u => u.email == lowercase (body.email.getD ""))).isSome
  then (400, "Email sudah terdaftar", users, cats)
  else
    (201, "Pendaftaran berhasil. Silakan login.",
     users ++ [{ id := freshId, email := lowercase (body.email.getD ""),
                 password := body.password.getD "", createdAt := now }],
     cats ++ createDefaultCategories freshId now catIds)

/-! Concrete fixtures used by the witness theorems.  Twelve-character ids
are valid ObjectId strings under the cast model. -/

def uidA : String := "aaaaaaaaaaaa"

def uidB : String := "bbbbbbbbbbbb"

def txIdC : String := "cccccccccccc"

def fidD : String := "dddddddddddd"

def txA : Transaction :=
  { id := txIdC, userId := uidA, type := "expense", date := 0, category := "Ops",
    description := "x", amount := 5, customerName := none, invoiceNumber := "",
    createdAt := 0, updatedAt := 0 }

def spoofPutBody : TxnBody := { userId := some uidB }

def userW : User :=
  { id := "uuuuuuuuuuuu", email := "u@x.com", password := "abcd", createdAt := 0 }

/-- An element not matched by `p` survives `removeFirst p`. -/
theorem mem_removeFirst (p : α → Bool) (x : α) :
    ∀ l : List α, x ∈ l → p x = false → x ∈ removeFirst p l := by
  intro l
  induction l with
  | nil => intro h _; exact absurd h (List.not_mem_nil x)
  | cons a as ih =>
    intro hmem hpx
    simp only [removeFirst]
    by_cases hpa : p a
    · rw [if_pos hpa]
      rcases List.mem_cons.mp hmem with rfl | h
      · rw [hpx] at hpa; exact absurd hpa (by simp)
      · exact h
    · rw [if_neg hpa]
      rcases List.mem_cons.mp hmem with rfl | h
      · exact List.mem_cons_self x _
      · exact List.mem_cons_of_mem a (ih h hpx)

/-- C5: round-trip law of the token service: verifying a token immediately
after issuing it succeeds and returns claims whose `userId` is the issued
one (with `iat = now` and `exp = now + TTL`). -/
theorem verify_after_generate_roundtrip (secret userId : String) (now : Int) :
    verifyToken secret now (generateToken secret now userId) =
      some { userId := userId, iat := now, exp := now + JWT_EXPIRES_IN } := by
  simp only [verifyToken, generateToken, jwtSign, jwtVerify]
  split_ifs with h1 h2
  · exact absurd rfl h1
  · exfalso; simp only [JWT_EXPIRES_IN] at h2; omega
  · rfl

/-- C6: `verifyToken` is total by construction (the try/catch) and returns
`none` on every failure: malformed input, a wrong signature, and an
elapsed expiry (a token is expired once `now` has reached `exp`). -/
theorem verifyToken_none_on_any_failure (secret : String) (now : Int) :
    (∀ raw, verifyToken secret now (.malformed raw) = none) ∧
    (∀ c s, s ≠ secret → verifyToken secret now (.signed c s) = none) ∧
    (∀ c s, c.exp ≤ now → verifyToken secret now (.signed c s) = none) := by
  refine ⟨fun raw => rfl, ?_, ?_⟩
  · intro c s hs
    simp [verifyToken, jwtVerify, hs]
  · intro c s hx
    by_cases hs : s = secret
    · subst hs; simp [verifyToken, jwtVerify, hx]
    · simp [verifyToken, jwtVerify, hs]

/-- C6 witness: a token whose TTL has elapsed (issued one TTL ago, expiry
now) verifies to `none`. -/
theorem verifyToken_none_on_any_failure_concrete :
    verifyToken "s" 0 (.signed { userId := "u", iat := -604800, exp := 0 } "s") = none :=
  (verifyToken_none_on_any_failure "s" 0).2.2
    { userId := "u", iat := -604800, exp := 0 } "s" (by decide)

/-- C4: the guard's four-step contract: (1) missing header or wrong scheme
is a 401 invalid-token rejection; (2) a token that fails verification is a
401 invalid-token rejection; (3) a verified token whose userId claim
matches no stored user is a 401 user-not-found rejection; (4) otherwise
the userId and user record are attached and the request proceeds. -/
theorem authenticate_four_step_contract (users : List User) (secret : String) (now : Int) :
    (authenticate users secret now none = .reject 401 "Token tidak valid") ∧
    (∀ raw, authenticate users secret now (some (.nonBearer raw)) =
      .reject 401 "Token tidak valid") ∧
    (∀ tok, verifyToken secret now tok = none →
      authenticate users secret now (some (.bearer tok)) =
        .reject 401 "Token tidak valid") ∧
    (∀ tok c, verifyToken secret now tok = some c → findById users c.userId = none →
      authenticate users secret now (some (.bearer tok)) =
        .reject 401 "User tidak ditemukan") ∧
    (∀ tok c u, verifyToken secret now tok = some c → findById users c.userId = some u →
      authenticate users secret now (some (.bearer tok)) = .proceed c.userId u) := by
  refine ⟨rfl, fun raw => rfl, ?_, ?_, ?_⟩
  · intro tok hv
    simp [authenticate, hv]
  · intro tok c hv hf
    simp [authenticate, hv, hf]
  · intro tok c u hv hf
    simp [authenticate, hv, hf]

/-- C4 witness: a freshly issued token for a stored user proceeds with that
user attached. -/
theorem authenticate_four_step_contract_concrete :
    authenticate [userW] "s" 0 (some (.bearer (generateToken "s" 0 "uuuuuuuuuuuu"))) =
      .proceed "uuuuuuuuuuuu" userW :=
  (authenticate_four_step_contract [userW] "s" 0).2.2.2.2
    (generateToken "s" 0 "uuuuuuuuuuuu")
    { userId := "uuuuuuuuuuuu", iat := 0, exp := 0 + JWT_EXPIRES_IN } userW
    (by decide) (by decide)

/-- C2 refuted (code bug): the owner of a stored transaction sends
PUT /transactions/:id with a body whose `userId` is another valid id; the
update succeeds (200) and the stored record's `userId` becomes the
client-supplied value, not the authenticated caller's id — the update path
spreads the body into the `$set` document without re-stamping `userId`. -/
theorem put_transaction_stores_spoofed_userId :
    putTransaction [txA] uidA txIdC spoofPutBody 1 =
      (200, [{ txA with userId := uidB, updatedAt := 1 }]) ∧
    uidB ≠ uidA := by decide

/-- C10: a PUT or DELETE /transactions/:id whose path id is not a castable
ObjectId string throws in the store lookup and lands in the generic catch:
the response is 500 and the store is unchanged (in particular not 404). -/
theorem malformed_id_is_500
    (db : List Transaction) (uid idParam : String) (body : TxnBody) (now : Int)
    (h : isValidObjectId idParam = false) :
    putTransaction db uid idParam body now = (500, db) ∧
    deleteTransaction db uid idParam = (500, db) := by
  constructor
  · simp [putTransaction, h]
  · simp [deleteTransaction, h]

/-- C10 witness: the id string "abc" is not a valid ObjectId and both
handlers answer 500 leaving the store unchanged. -/
theorem malformed_id_is_500_concrete :
    putTransaction [txA] uidA "abc" {} 0 = (500, [txA]) ∧
    deleteTransaction [txA] uidA "abc" = (500, [txA]) :=
  malformed_id_is_500 [txA] uidA "abc" {} 0 (by decide)

/-- C1: every create handler stamps the stored record's `userId` from the
authenticated identity, whatever the client payload contains (a spoofed
`userId` field included): any record present after the call that was not
present before carries the caller's id. -/
theorem creates_stamp_authenticated_userId
    (db1 : List Transaction) (db2 : List BalanceItem) (db3 : List Category)
    (uid fid : String) (now : Int)
    (b1 : TxnBody) (b2 : BalanceItemBody) (b3 : CategoryBody) :
    (∀ t ∈ (postTransactions db1 uid b1 fid now).2, t ∈ db1 ∨ t.userId = uid) ∧
    (∀ b ∈ (postBalanceItems db2 uid b2 fid now).2, b ∈ db2 ∨ b.userId = uid) ∧
    (∀ c ∈ (postCategories db3 uid b3 fid now).2, c ∈ db3 ∨ c.userId = uid) := by
  refine ⟨?_, ?_, ?_⟩
  · intro t ht
    by_cases h : validTxnData { b1 with userId := some uid } = true
    · simp only [postTransactions, mkTransaction, if_pos h, List.mem_append,
        List.mem_singleton] at ht
      rcases ht with ht | ht
      · exact Or.inl ht
      · subst ht; right; rfl
    · rw [Bool.not_eq_true] at h
      simp only [postTransactions, mkTransaction, h, Bool.false_eq_true,
        if_false] at ht
      exact Or.inl ht
  · intro b hb
    by_cases h : validBalanceItemData { b2 with userId := some uid } = true
    · simp only [postBalanceItems, mkBalanceItem, if_pos h, List.mem_append,
        List.mem_singleton] at hb
      rcases hb with hb | hb
      · exact Or.inl hb
      · subst hb; right; rfl
    · rw [Bool.not_eq_true] at h
      simp only [postBalanceItems, mkBalanceItem, h, Bool.false_eq_true,
        if_false] at hb
      exact Or.inl hb
  · intro c hc
    unfold postCategories at hc
    split at hc
    · exact Or.inl hc
    · split at hc
      · exact Or.inl hc
      · split at hc
        · exact Or.inl hc
        · split at hc
          · exact Or.inl hc
          · simp only [List.mem_append, List.mem_singleton] at hc
            rcases hc with hc | hc
            · exact Or.inl hc
            · subst hc; right; rfl

def spoofCreateBody : TxnBody :=
  { userId := some uidB, type := some "income", date := some 0,
    category := some "Sales", description := some "x", amount := some 7,
    customerName := some "Bob" }

def txStamped : Transaction :=
  { id := fidD, userId := uidA, type := "income", date := 0, category := "Sales",
    description := "x", amount := 7, customerName := some "Bob",
    invoiceNumber := "", createdAt := 3, updatedAt := 3 }

/-- C1 witness: the record stored for a create payload spoofing
`userId := uidB` under caller `uidA` carries `uidA`. -/
theorem creates_stamp_authenticated_userId_concrete :
    txStamped ∈ ([] : List Transaction) ∨ txStamped.userId = uidA :=
  (creates_stamp_authenticated_userId [] [] [] uidA fidD 3 spoofCreateBody {} {}).1
    txStamped (by decide)

/-- C3: an update or delete that targets a well-formed identifier matching
no record owned by the caller — because the record does not exist or
because it belongs to someone else — answers 404 (never 200 or 403, and
identically in both cases) and leaves the store unchanged. -/
theorem missing_or_unowned_target_404
    (dbt : List Transaction) (dbc : List Category) (uid idParam : String)
    (body : TxnBody) (now : Int)
    (hid : isValidObjectId idParam = true)
    (hcast : txnUpdateCastOk body = true)
    (ht : ∀ t ∈ dbt, ¬ (t.id = idParam ∧ t.userId = uid))
    (hc : ∀ c ∈ dbc, ¬ (c.id = idParam ∧ c.userId = uid)) :
    putTransaction dbt uid idParam body now = (404, dbt) ∧
    deleteTransaction dbt uid idParam = (404, dbt) ∧
    deleteCategory dbc uid idParam = (404, dbc) := by
  have hft : dbt.find? (fun t => t.id == idParam && t.userId == uid) = none := by
    rw [List.find?_eq_none]
    intro t htm hpt
    simp only [Bool.and_eq_true, beq_iff_eq] at hpt
    exact ht t htm hpt
  have hfc : dbc.find?
      (fun c => c.id == idParam && c.userId == uid && !c.isDefault) = none := by
    rw [List.find?_eq_none]
    intro c hcm hpc
    simp only [Bool.and_eq_true, beq_iff_eq, Bool.not_eq_true'] at hpc
    exact hc c hcm ⟨hpc.1.1, hpc.1.2⟩
  refine ⟨?_, ?_, ?_⟩
  · simp [putTransaction, hid, hcast, hft]
  · simp [deleteTransaction, hid, hft]
  · simp [deleteCategory, hid, hfc]

/-- C3 witness: user B targeting A's transaction gets 404 with the store
unchanged, exactly as for an id that exists nowhere. -/
theorem missing_or_unowned_target_404_concrete :
    putTransaction [txA] uidB txIdC {} 0 = (404, [txA]) ∧
    deleteTransaction [txA] uidB txIdC = (404, [txA]) ∧
    deleteCategory [] uidB txIdC = (404, []) :=
  missing_or_unowned_target_404 [txA] [] uidB txIdC {} 0 (by decide) (by decide)
    (by decide) (by decide)

/-- C9: DELETE /categories/:id never removes a category flagged
`isDefault`; when every category under the targeted id is a default one,
the request fails (status differs from 200) and the store is unchanged,
whoever the caller is. -/
theorem default_category_never_deleted (db : List Category) (uid idParam : String) :
    (∀ c ∈ db, c.isDefault = true → c ∈ (deleteCategory db uid idParam).2) ∧
    ((∀ c ∈ db, c.id = idParam → c.isDefault = true) →
      (deleteCategory db uid idParam).1 ≠ 200 ∧
      (deleteCategory db uid idParam).2 = db) := by
  constructor
  · intro c hc hdef
    by_cases hv : isValidObjectId idParam = true
    · cases hfind : db.find?
          (fun c => c.id == idParam && c.userId == uid && c.isDefault == false) with
      | none =>
        simp only [deleteCategory, hv, not_true, if_false, hfind]
        exact hc
      | some d =>
        simp only [deleteCategory, hv, not_true, if_false, hfind]
        exact mem_removeFirst _ c db hc (by simp [hdef])
    · rw [Bool.not_eq_true] at hv
      simp only [deleteCategory, hv, Bool.false_eq_true, not_false_iff, if_true]
      exact hc
  · intro hall
    by_cases hv : isValidObjectId idParam = true
    · have hfind : db.find?
          (fun c => c.id == idParam && c.userId == uid && !c.isDefault) = none := by
        rw [List.find?_eq_none]
        intro c hcm hpc
        simp only [Bool.and_eq_true, beq_iff_eq, Bool.not_eq_true'] at hpc
        have hd := hall c hcm hpc.1.1
        rw [hd] at hpc
        exact absurd hpc.2 (by simp)
      simp [deleteCategory, hv, hfind]
    · rw [Bool.not_eq_true] at hv
      simp [deleteCategory, hv]

def catDefault : Category :=
  { id := "eeeeeeeeeeee", userId := uidA, type := "income", name := "Penjualan",
    isDefault := true, createdAt := 0 }

/-- C9 witness: even the owner deleting their own default category leaves
it stored and gets a non-200 answer. -/
theorem default_category_never_deleted_concrete :
    catDefault ∈ (deleteCategory [catDefault] uidA "eeeeeeeeeeee").2 ∧
    (deleteCategory [catDefault] uidA "eeeeeeeeeeee").1 ≠ 200 ∧
    (deleteCategory [catDefault] uidA "eeeeeeeeeeee").2 = [catDefault] :=
  ⟨(default_category_never_deleted [catDefault] uidA "eeeeeeeeeeee").1 catDefault
      (by decide) (by decide),
   (default_category_never_deleted [catDefault] uidA "eeeeeeeeeeee").2 (by decide)⟩

def noAmountBody : TxnBody :=
  { type := some "expense", date := some 0, category := some "Food",
    description := some "x" }

/-- C8 refuted: a POST /transactions payload missing its required `amount`
is answered 500 by the handler's generic catch, not 400, storing nothing —
the handler has no validation branch of its own. -/
theorem post_transactions_missing_amount_is_500 :
    (postTransactions [] uidA noAmountBody fidD 0).1 = 500 ∧
    ¬ (postTransactions [] uidA noAmountBody fidD 0).1 = 400 ∧
    (postTransactions [] uidA noAmountBody fidD 0).2 = [] := by
  decide

/-- C8 amended: a POST /transactions payload missing a required field (no
amount, no date, or an income transaction without customerName) makes the
save throw into the generic catch: the response is 500 and no record is
stored. -/
theorem post_transactions_malformed_is_500
    (db : List Transaction) (uid fid : String) (body : TxnBody) (now : Int)
    (h : body.amount = none ∨ body.date = none ∨
         (body.type = some "income" ∧ body.customerName.getD "" = "")) :
    postTransactions db uid body fid now = (500, db) := by
  have hv : validTxnData { body with userId := some uid } = false := by
    rcases h with h | h | ⟨h1, h2⟩
    · simp [validTxnData, h]
    · simp [validTxnData, h]
    · simp [validTxnData, h1, h2]
  simp [postTransactions, mkTransaction, hv]

def noCustomerBody : TxnBody :=
  { type := some "income", date := some 0, category := some "Sales",
    description := some "x", amount := some 5 }

/-- C8 amended witness: an income payload with no customerName yields 500
and an unchanged store. -/
theorem post_transactions_malformed_is_500_concrete :
    postTransactions [] uidA noCustomerBody fidD 0 = (500, []) :=
  post_transactions_malformed_is_500 [] uidA fidD noCustomerBody 0
    (Or.inr (Or.inr ⟨rfl, rfl⟩))

/-- A 201 answer from `register` means the validations passed, the
duplicate lookup under the lowercased email found nothing, and the stored
user carries the lowercased email. -/
theorem register_201_dest (users : List User) (cats : List Category)
    (body : RegisterBody) (fid : String) (ids : List String) (t : Int)
    (h : (register users cats body fid ids t).1 = 201) :
    (users.find? (fun u => u.email == lowercase (body.email.getD ""))) = none ∧
    (register users cats body fid ids t).2.2.1 =
      users ++ [{ id := fid, email := lowercase (body.email.getD ""),
                  password := body.password.getD "", createdAt := t }] ∧
    (register users cats body fid ids t).2.2.2 =
      cats ++ createDefaultCategories fid t ids := by
  have c1 : (truthy body.email && truthy body.password) = true := by
    by_contra hc
    rw [Bool.not_eq_true] at hc
    simp [register, hc] at h
  have c2 : ¬ (body.password.getD "").length < 4 := by
    intro hc
    simp [register, c1, hc] at h
  have c3 : users.find? (fun u => u.email == lowercase (body.email.getD "")) = none := by
    cases hfind : users.find? (fun u => u.email == lowercase (body.email.getD "")) with
    | none => rfl
    | some u => simp [register, c1, c2, hfind] at h
  refine ⟨c3, ?_, ?_⟩ <;> simp [register, c1, c2, c3]

/-- C7: registration lowercases the email on the duplicate-lookup and the
write path: after a successful registration, registering any email equal
to the first up to letter case (with a well-formed password) fails with a
400 and stores no new user and no new categories. -/
theorem register_case_insensitive_duplicate
    (users : List User) (cats : List Category)
    (e1 e2 p1 p2 fid1 fid2 : String) (ids1 ids2 : List String) (t1 t2 : Int)
    (hcase : lowercase e1 = lowercase e2) (he2 : e2 ≠ "")
    (hp2a : p2 ≠ "") (hp2b : ¬ p2.length < 4)
    (h1 : (register users cats { email := some e1, password := some p1 } fid1 ids1 t1).1
      = 201) :
    register
      (register users cats { email := some e1, password := some p1 } fid1 ids1 t1).2.2.1
      (register users cats { email := some e1, password := some p1 } fid1 ids1 t1).2.2.2
      { email := some e2, password := some p2 } fid2 ids2 t2 =
    (400, "Email sudah terdaftar",
     (register users cats { email := some e1, password := some p1 } fid1 ids1 t1).2.2.1,
     (register users cats { email := some e1, password := some p1 } fid1 ids1 t1).2.2.2) := by
  obtain ⟨hfind, husers, hcats⟩ :=
    register_201_dest users cats { email := some e1, password := some p1 } fid1 ids1 t1 h1
  rw [husers, hcats]
  unfold register
  split_ifs with g1 g2 g3
  all_goals try rfl
  all_goals try simp_all [truthy]
  all_goals omega

/-- C7 witness: registering "A@B.com" and then "a@b.com" makes the second
call fail with 400 leaving both stores as after the first call. -/
def regBodyUpper : RegisterBody := { email := some "A@B.com", password := some "abcd" }

def regBodyLower : RegisterBody := { email := some "a@b.com", password := some "efgh" }

theorem register_case_insensitive_duplicate_concrete :
    register (register [] [] regBodyUpper "uuuuuuuuuuuu" [] 0).2.2.1
      (register [] [] regBodyUpper "uuuuuuuuuuuu" [] 0).2.2.2
      regBodyLower "vvvvvvvvvvvv" [] 1 =
    (400, "Email sudah terdaftar",
     (register [] [] regBodyUpper "uuuuuuuuuuuu" [] 0).2.2.1,
     (register [] [] regBodyUpper "uuuuuuuuuuuu" [] 0).2.2.2) :=
  register_case_insensitive_duplicate [] [] "A@B.com" "a@b.com" "abcd" "efgh"
    "uuuuuuuuuuuu" "vvvvvvvvvvvv" [] [] 0 1
    (by decide) (by decide) (by decide) (by decide) (by decide)

end Afams
